import Mathlib

/-!
Verification of the selection transform and compositing engine of the
BenbenPainterQT6 paint application (src/selection_tools.py, src/controller.py,
src/base_tool.py) against its natural-language specification.

The Python code is shallowly embedded: pure fragments become Lean functions,
the stateful tool/controller pair becomes explicit state passing over
`ToolState`/`AppState`, and the event handlers that only dispatch become
functions or a step relation.  Machine floats of the source are modelled by
exact real arithmetic; integer pixel arithmetic (Qt ARGB32 compositing) is
modelled exactly at the 0/255 alpha values the claims exercise.  Rendering
that is genuinely resampling-dependent (smooth-filtered scaling, rotated
drawing) is outside the pixel-exact fragment; the commit pixel semantics is
therefore embedded for the untransformed case (rotation 0, scale 1), which is
the case the pixel-level claims are about.
-/

/-! ## Qt integer rectangles

`QRect` stores the two corner coordinates, as the C++ class does:
x1 = left, y1 = top, x2 = right, y2 = bottom, with width = x2 - x1 + 1. -/

structure QRect where
  x1 : Int
  y1 : Int
  x2 : Int
  y2 : Int
deriving DecidableEq, Repr

namespace QRect

/-- The QRect(x, y, w, h) constructor. -/
def mk4 (x y w h : Int) : QRect := ⟨x, y, x + w - 1, y + h - 1⟩

def left (r : QRect) : Int := r.x1

def top (r : QRect) : Int := r.y1

def right (r : QRect) : Int := r.x2

def bottom (r : QRect) : Int := r.y2

def width (r : QRect) : Int := r.x2 - r.x1 + 1

def height (r : QRect) : Int := r.y2 - r.y1 + 1

def setLeft (r : QRect) (v : Int) : QRect := { r with x1 := v }

def setTop (r : QRect) (v : Int) : QRect := { r with y1 := v }

def setRight (r : QRect) (v : Int) : QRect := { r with x2 := v }

def setBottom (r : QRect) (v : Int) : QRect := { r with y2 := v }

/-- QRect.setWidth keeps the left edge and moves the right edge. -/
def setWidth (r : QRect) (w : Int) : QRect := { r with x2 := r.x1 + w - 1 }

/-- QRect.setHeight keeps the top edge and moves the bottom edge. -/
def setHeight (r : QRect) (h : Int) : QRect := { r with y2 := r.y1 + h - 1 }

def translate (r : QRect) (dx dy : Int) : QRect :=
  ⟨r.x1 + dx, r.y1 + dy, r.x2 + dx, r.y2 + dy⟩

/-- QRect.normalized with Qt 6 semantics: when an end coordinate lies before
the corresponding start coordinate the two are exchanged. -/
def normalized (r : QRect) : QRect :=
  let rx := if r.x2 < r.x1 then (r.x2, r.x1) else (r.x1, r.x2)
  let ry := if r.y2 < r.y1 then (r.y2, r.y1) else (r.y1, r.y2)
  ⟨rx.1, ry.1, rx.2, ry.2⟩

/-- QRect.contains for a well-formed (non-inverted) rectangle: the point lies
inside or on the edge. -/
def contains (r : QRect) (x y : Int) : Bool :=
  decide (r.x1 ≤ x) && decide (x ≤ r.x2) && decide (r.y1 ≤ y) && decide (y ≤ r.y2)

def adjusted (r : QRect) (dx1 dy1 dx2 dy2 : Int) : QRect :=
  ⟨r.x1 + dx1, r.y1 + dy1, r.x2 + dx2, r.y2 + dy2⟩

/-- The x coordinate of QRect.center: C++ truncating division of x1 + x2 by 2. -/
def centerX (r : QRect) : Int := Int.tdiv (r.x1 + r.x2) 2

/-- The y coordinate of QRect.center. -/
def centerY (r : QRect) : Int := Int.tdiv (r.y1 + r.y2) 2

end QRect

/-! ## Pixels and images

A pixel is an ARGB quadruple of 8-bit channel values in premultiplied-alpha
form, which is the representation QPainter composites in.  The Porter-Duff
operators used by the source (DestinationIn at capture, DestinationOut and
SourceOver at commit) are embedded with exact integer arithmetic; at the
alpha values 0 and 255 that the claims exercise this agrees exactly with the
8-bit arithmetic of Qt. -/

structure Pixel where
  a : Nat
  r : Nat
  g : Nat
  b : Nat
deriving DecidableEq, Repr

namespace Pixel

def transparent : Pixel := ⟨0, 0, 0, 0⟩

/-- Scale every premultiplied channel by w/255. -/
def scaleBy (p : Pixel) (w : Nat) : Pixel :=
  ⟨p.a * w / 255, p.r * w / 255, p.g * w / 255, p.b * w / 255⟩

end Pixel

/-- Porter-Duff DestinationIn: keep the destination where the source (here the
selection mask) has coverage sa. -/
def dstIn (d : Pixel) (sa : Nat) : Pixel := d.scaleBy sa

/-- Porter-Duff DestinationOut: clear the destination where the source (here
the stamped mask) has coverage sa. -/
def dstOut (d : Pixel) (sa : Nat) : Pixel := d.scaleBy (255 - sa)

/-- Porter-Duff SourceOver on premultiplied pixels. -/
def srcOver (s d : Pixel) : Pixel :=
  ⟨s.a + d.a * (255 - s.a) / 255, s.r + d.r * (255 - s.a) / 255,
   s.g + d.g * (255 - s.a) / 255, s.b + d.b * (255 - s.a) / 255⟩

/-- A raster image: a size together with a pixel lookup function. -/
structure Img where
  w : Int
  h : Int
  pix : Int → Int → Pixel

/-- An opaque single-colour canvas, as produced by QImage.fill on a layer. -/
def solidImg (w h : Int) (p : Pixel) : Img := ⟨w, h, fun _ _ => p⟩

theorem scaleBy_zero (p : Pixel) : p.scaleBy 0 = Pixel.transparent := by
  simp [Pixel.scaleBy, Pixel.transparent]

theorem scaleBy_255 (p : Pixel) : p.scaleBy 255 = p := by
  cases p with
  | mk a r g b => simp [Pixel.scaleBy, Nat.mul_div_cancel]

theorem dstOut_full_cover (d : Pixel) : dstOut d 255 = Pixel.transparent := by
  simp [dstOut, scaleBy_zero]

theorem dstIn_full_cover (d : Pixel) : dstIn d 255 = d := by
  simp [dstIn, scaleBy_255]

theorem srcOver_transparent (s : Pixel) : srcOver s Pixel.transparent = s := by
  cases s with
  | mk a r g b => simp [srcOver, Pixel.transparent]

/-! ## Selection masks, capture, and the commit draw

From BaseSelectTool._create_selection_mask, _capture_selection and the
draw_transformed_selection closure of _commit_selection. -/

/-- BaseSelectTool._create_selection_mask (rectangle tool): an image of the
selection rectangle size filled with fully opaque white. -/
def createRectMask (r : QRect) : Img :=
  ⟨r.width, r.height, fun _ _ => ⟨255, 255, 255, 255⟩⟩

/-- BaseSelectTool._capture_selection, steps 2-3: copy the layer pixels under
selection_rect into a buffer of the rectangle size, then apply the mask as the
alpha channel with CompositionMode_DestinationIn. -/
def captureContent (layer : Img) (r : QRect) (mask : Img) : Img :=
  ⟨r.width, r.height, fun u v =>
    dstIn (layer.pix (r.x1 + u) (r.y1 + v)) ((mask.pix u v).a)⟩

/-- The pixel effect of the draw_transformed_selection closure in
_commit_selection for the untransformed case (rotation_angle = 0,
scale_factor = 1, with mask and content already at selection_rect size, so
that both .scaled calls are identity copies and the pivot transform is the
identity): inside the current selection_rect the layer is first erased with
CompositionMode_DestinationOut against the mask stamped at
selection_rect.topLeft(), then the captured content is drawn there with
CompositionMode_SourceOver.  The erase step is skipped when selection_mask is
None, exactly as in the source.  Integer-aligned QPainter.drawImage is
pixel-exact, so this fragment is modelled without resampling. -/
def commitDrawUntransformed (r : QRect) (mask : Option Img) (content : Img)
    (layer : Img) : Img :=
  ⟨layer.w, layer.h, fun x y =>
    if r.contains x y then
      let u := x - r.x1
      let v := y - r.y1
      let erased := match mask with
        | some m => dstOut (layer.pix x y) ((m.pix u v).a)
        | none => layer.pix x y
      srcOver (content.pix u v) erased
    else layer.pix x y⟩

/-! ## Tool state

The mutable attributes of BaseSelectTool (and the extra attributes of
ImprovedPolygonSelectTool) as one record.  Positions that the source stores as
QPointF are always constructed from the integer image coordinates, so they
are carried as integer pairs; the float-valued transform state
(scale_factor, rotation_angle and their gesture-start copies) is carried as
exact reals. -/

inductive ResizeHandle where
  | tl | tr | bl | br | t | b | l | r
deriving DecidableEq, Repr

structure ToolState where
  selection_rect : Option QRect
  is_floating : Bool
  selected_content : Option Img
  selection_mask : Option Img
  is_moving : Bool
  is_scaling : Bool
  is_rotating : Bool
  is_resizing : Bool
  resize_handle : Option ResizeHandle
  last_mouse_pos : Option (Int × Int)
  original_scale : ℝ
  original_angle : ℝ
  scale_factor : ℝ
  rotation_angle : ℝ
  scale_handle_rect : Option QRect
  rotate_handle_rect : Option QRect
  resize_handles : List (ResizeHandle × QRect)
  destroy_on_other_action : Bool
  drawing : Bool
  start_pos : Option (Int × Int)
  end_pos : Option (Int × Int)
  points : List (Int × Int)
  original_points : List (Int × Int)
  temp_point : Option (Int × Int)
  is_creating : Bool
  has_first_click : Bool

/-- The state established by BaseSelectTool.__init__ (and, for the polygon
fields, ImprovedPolygonSelectTool.__init__). -/
def initTool : ToolState where
  selection_rect := none
  is_floating := false
  selected_content := none
  selection_mask := none
  is_moving := false
  is_scaling := false
  is_rotating := false
  is_resizing := false
  resize_handle := none
  last_mouse_pos := none
  original_scale := 1
  original_angle := 0
  scale_factor := 1
  rotation_angle := 0
  scale_handle_rect := none
  rotate_handle_rect := none
  resize_handles := []
  destroy_on_other_action := true
  drawing := false
  start_pos := none
  end_pos := none
  points := []
  original_points := []
  temp_point := none
  is_creating := false
  has_first_click := false

/-! ## Tool-level operations on the selection -/

/-- BaseSelectTool._start_new_selection. -/
def startNewSelection (x y : Int) (st : ToolState) : ToolState :=
  { st with start_pos := some (x, y), end_pos := some (x, y), drawing := true }

/-- The drawing branch of BaseSelectTool.mouse_move: record the new drag end
point.  The shift-key square constraint only rewrites end_pos to another
integer point, so quantifying over end_pos covers it. -/
def updateDragEnd (x y : Int) (st : ToolState) : ToolState :=
  { st with end_pos := some (x, y) }

/-- BaseSelectTool._move_selection. -/
def moveSelection (dx dy : Int) (st : ToolState) : ToolState :=
  match st.selection_rect with
  | some r => { st with selection_rect := some (r.translate dx dy) }
  | none => st

/-- BaseSelectTool._resize_selection: move the edges named by the handle by
the pointer delta, normalize, then clamp width and height to at least 1. -/
def resizeSelection (dx dy : Int) (st : ToolState) : ToolState :=
  match st.selection_rect, st.resize_handle with
  | some rect, some h =>
    let r1 := match h with
      | .tl => (rect.setLeft (rect.left + dx)).setTop (rect.top + dy)
      | .tr => (rect.setRight (rect.right + dx)).setTop (rect.top + dy)
      | .bl => (rect.setLeft (rect.left + dx)).setBottom (rect.bottom + dy)
      | .br => (rect.setRight (rect.right + dx)).setBottom (rect.bottom + dy)
      | .t => rect.setTop (rect.top + dy)
      | .b => rect.setBottom (rect.bottom + dy)
      | .l => rect.setLeft (rect.left + dx)
      | .r => rect.setRight (rect.right + dx)
    let r2 := r1.normalized
    let r3 := r2.setWidth (max 1 r2.width)
    let r4 := r3.setHeight (max 1 r3.height)
    { st with selection_rect := some r4 }
  | _, _ => st

/-- Python float modulo a % b for a positive divisor b, as exact real
arithmetic: the representative of a in [0, b). -/
noncomputable def pyFMod (a b : ℝ) : ℝ := a - b * (Int.floor (a / b) : ℝ)

/-- math.degrees(math.atan2(y, x)): the argument of the complex number
x + y*i, converted to degrees. -/
noncomputable def atan2Deg (y x : ℝ) : ℝ :=
  Complex.arg { re := x, im := y } * 180 / Real.pi

/-- BaseSelectTool._handle_scaling: rescale relative to the distance from the
selection center, starting from the gesture-start scale, clamped into
[0.1, 10.0].  The guards mirror the source: no selection rectangle or a zero
start distance leaves the state unchanged; the caller (mouse_move) guarantees
last_mouse_pos is set. -/
noncomputable def handleScaling (x y : Int) (st : ToolState) : ToolState :=
  match st.selection_rect, st.last_mouse_pos with
  | some r, some lp =>
    let cx : ℝ := (r.centerX : ℝ)
    let cy : ℝ := (r.centerY : ℝ)
    let dist := Real.sqrt (((x : ℝ) - cx) ^ 2 + ((y : ℝ) - cy) ^ 2)
    let originalDist := Real.sqrt (((lp.1 : ℝ) - cx) ^ 2 + ((lp.2 : ℝ) - cy) ^ 2)
    if 0 < originalDist then
      let scaleDelta := dist / originalDist
      { st with scale_factor := max 0.1 (min (st.original_scale * scaleDelta) 10.0) }
    else st
  | _, _ => st

/-- BaseSelectTool._handle_rotation: add the pointer angle change about the
selection center to the gesture-start angle, modulo 360. -/
noncomputable def handleRotation (x y : Int) (st : ToolState) : ToolState :=
  match st.selection_rect, st.last_mouse_pos with
  | some r, some lp =>
    let cx : ℝ := (r.centerX : ℝ)
    let cy : ℝ := (r.centerY : ℝ)
    let angle1 := atan2Deg ((lp.2 : ℝ) - cy) ((lp.1 : ℝ) - cx)
    let angle2 := atan2Deg ((y : ℝ) - cy) ((x : ℝ) - cx)
    { st with rotation_angle := pyFMod (st.original_angle + (angle2 - angle1)) 360 }
  | _, _ => st

/-! ## Handle hit-testing and the floating-mode pointer-down dispatch

From BaseSelectTool.mouse_press (floating branch), _get_resize_handle_at and
_is_point_in_selection. -/

/-- Whether the stored scale handle rectangle contains the point, as tested
first in the floating branch of mouse_press. -/
def scaleHandleHit (st : ToolState) (x y : Int) : Bool :=
  match st.scale_handle_rect with
  | some r => r.contains x y
  | none => false

/-- Whether the stored rotate handle rectangle contains the point. -/
def rotateHandleHit (st : ToolState) (x y : Int) : Bool :=
  match st.rotate_handle_rect with
  | some r => r.contains x y
  | none => false

/-- BaseSelectTool._get_resize_handle_at: the first of the eight stored
handles, in insertion order, whose rectangle grown by the hot_expand margin
of 10 contains the point. -/
def getResizeHandleAt (st : ToolState) (x y : Int) : Option ResizeHandle :=
  (st.resize_handles.find? fun hr => (hr.2.adjusted (-10) (-10) 10 10).contains x y).map
    fun hr => hr.1

/-- The forward map of the QTransform built from translate(center),
rotate(rotation_angle), scale(scale_factor, scale_factor),
translate(-center): p maps to center + f * R(angle)(p - center), in the
y-down screen convention of Qt. -/
noncomputable def mapTransformed (cx cy angle f : ℝ) (p : ℝ × ℝ) : ℝ × ℝ :=
  let dx := p.1 - cx
  let dy := p.2 - cy
  let c := Real.cos (angle * Real.pi / 180)
  let s := Real.sin (angle * Real.pi / 180)
  (cx + f * (c * dx - s * dy), cy + f * (s * dx + c * dy))

/-- BaseSelectTool._is_point_in_selection: the point lies in the image of the
selection rectangle (as the real rectangle QRectF(QRect), spanning
[x1, x1 + width] by [y1, y1 + height]) under the current pivot transform.
Qt tests membership with odd-even ray casting on the mapped polygon; on the
solid rectangle this is closed-region membership, which is how the boundary
is modelled here. -/
def pointInSelection (st : ToolState) (x y : Int) : Prop :=
  match st.selection_rect with
  | none => False
  | some r => ∃ p : ℝ × ℝ,
      (r.x1 : ℝ) ≤ p.1 ∧ p.1 ≤ (r.x1 : ℝ) + (r.width : ℝ) ∧
      (r.y1 : ℝ) ≤ p.2 ∧ p.2 ≤ (r.y1 : ℝ) + (r.height : ℝ) ∧
      mapTransformed (r.centerX : ℝ) (r.centerY : ℝ) st.rotation_angle st.scale_factor p
        = ((x : ℝ), (y : ℝ))

/-- The outcome of a pointer-down in the floating branch of mouse_press. -/
inductive SelAction where
  | startScaling
  | startRotating
  | startResizing (h : ResizeHandle)
  | startMoving
  | commit
deriving DecidableEq, Repr

open Classical in
/-- The floating branch of BaseSelectTool.mouse_press: the hit tests are run
in the order of the source, each early return ending the dispatch. -/
noncomputable def mousePressFloating (st : ToolState) (x y : Int) : SelAction :=
  if scaleHandleHit st x y then .startScaling
  else if rotateHandleHit st x y then .startRotating
  else match getResizeHandleAt st x y with
    | some h => .startResizing h
    | none =>
      if pointInSelection st x y then .startMoving else .commit

/-! ## Controller state

From PaintController (src/controller.py): the layer list, the history stacks,
the status signal and the modified flag.  Layer snapshots carry the fields
the claims inspect (pixel buffer and lock flag); name, visibility, opacity
and the adjustment bookkeeping that save_to_history also snapshots are not
referenced by any claim and are omitted from the record. -/

structure Layer where
  image : Img
  locked : Bool

structure HistEntry where
  layers : List Layer
  active : Int

structure AppState where
  layers : List Layer
  active : Int
  undoStack : List HistEntry
  redoStack : List HistEntry
  isRecording : Bool
  isModified : Bool
  currentOperationSaved : Bool
  messages : List String
  tool : ToolState

/-- Python list indexing: nonnegative indices from the front, negative
indices from the back, out of range yielding none. -/
def pyGet (l : List Layer) (i : Int) : Option Layer :=
  if 0 ≤ i then l.get? i.toNat else l.get? (l.length - (-i).toNat)

/-- status_updated.emit: append a user-visible status line. -/
def emitStatus (m : String) (s : AppState) : AppState :=
  { s with messages := s.messages ++ [m] }

/-- PaintController.MAX_HISTORY, the maxlen of the two history deques. -/
def MAX_HISTORY : Nat := 20

/-- PaintController.save_to_history: unless recording is off or there are no
layers, push a full snapshot onto the undo deque (whose maxlen drops the
oldest entry when full) and clear the redo stack. -/
def saveToHistory (s : AppState) : AppState :=
  if s.isRecording = false ∨ s.layers.isEmpty then s
  else
    let pushed := s.undoStack ++ [⟨s.layers, s.active⟩]
    { s with
      undoStack := if MAX_HISTORY < pushed.length then pushed.drop (pushed.length - MAX_HISTORY) else pushed,
      redoStack := [] }

/-- PaintController.draw_on_active_layer: guard the index, reject a locked
layer with a status message, optionally save history (guarded by the
batching flags and the per-operation latch), then replace the active layer
image by the painted copy and set the modified flag. -/
def drawOnActiveLayer (painterFunc : Img → Img)
    (saveHistory isBatchStart isBatchEnd : Bool) (s : AppState) : AppState :=
  if s.active < 0 ∨ (s.layers.length : Int) ≤ s.active then s
  else match s.layers.get? s.active.toNat with
    | none => s
    | some activeLayer =>
      if activeLayer.locked then emitStatus "图层已锁定，无法绘制" s
      else
        let s1 :=
          if saveHistory ∧ (isBatchStart ∨ (¬isBatchStart ∧ ¬isBatchEnd)) then
            if s.currentOperationSaved = false then
              { saveToHistory s with currentOperationSaved := true }
            else s
          else s
        let s2 := { s1 with
          layers := s1.layers.set s.active.toNat { activeLayer with image := painterFunc activeLayer.image },
          isModified := true }
        if isBatchEnd then { s2 with currentOperationSaved := false } else s2

/-- BaseSelectTool._cancel_selection: clear all floating state and the
polygon point lists, reset the transform, and report the cancellation.
The temp_pixmap preview it also clears is pure display state and is not
modelled. -/
def cancelSelection (s : AppState) : AppState :=
  emitStatus "选区已取消"
    { s with tool := { s.tool with
        is_floating := false
        selection_rect := none
        selected_content := none
        selection_mask := none
        scale_factor := 1
        rotation_angle := 0
        points := []
        original_points := [] } }

/-- BaseSelectTool.cancel: the BaseTool.cancel part (stop drawing, report)
followed by _cancel_selection. -/
def cancelTool (s : AppState) : AppState :=
  cancelSelection (emitStatus "操作已取消" { s with tool := { s.tool with drawing := false } })

/-- BaseSelectTool._commit_selection, with the pixel effect of its
draw_transformed_selection closure passed in as painterFunc: return
unchanged unless a floating selection with captured content exists,
otherwise save history, apply the draw through draw_on_active_layer with
save_history=False, and clear the floating state. -/
def commitSelectionWith (painterFunc : Img → Img) (s : AppState) : AppState :=
  if !s.tool.is_floating || s.tool.selection_rect.isNone || s.tool.selected_content.isNone then s
  else
    cancelSelection (drawOnActiveLayer painterFunc false false false (saveToHistory s))

/-- _commit_selection in the untransformed case (rotation 0, scale 1, mask
and content at the selection rectangle size): the closure reduces to
commitDrawUntransformed. -/
def commitSelectionUntransformed (s : AppState) : AppState :=
  match s.tool.selection_rect, s.tool.selected_content with
  | some r, some c => commitSelectionWith (commitDrawUntransformed r s.tool.selection_mask c) s
  | _, _ => commitSelectionWith id s

/-- BaseSelectTool._capture_selection, lifted to the controller state: do
nothing without a selection rectangle or without layers; otherwise build the
mask with the geometry-variant mask generator mkMask and capture the active
layer content under it.  mkMask returning none (the guard after
_create_selection_mask) leaves the state unchanged. -/
def captureSelectionApp (mkMask : QRect → Option Img) (s : AppState) : AppState :=
  match s.tool.selection_rect with
  | none => s
  | some r =>
    if s.layers.isEmpty then s
    else match pyGet s.layers s.active with
      | none => s
      | some activeLayer =>
        match mkMask r with
        | none => s
        | some mask =>
          { s with tool := { s.tool with
              selection_mask := some mask
              selected_content := some (captureContent activeLayer.image r mask) } }

/-- The ready message emitted by _finalize_selection. -/
def readyMessage (w h : Int) : String :=
  "选区就绪: " ++ toString w ++ "x" ++ toString h ++
    " | 拖动=移动, 角点=调整, 右下=缩放, 右上=旋转, Enter=提交, 画布外单击=提交, 其他操作=取消"

/-- BaseSelectTool._finalize_selection: normalize the dragged corners; when
both extents exceed 1 pixel, create the selection rectangle, enter floating
mode with the transform reset, capture the content and report readiness;
otherwise cancel. -/
def finalizeSelection (mkMask : QRect → Option Img) (s : AppState) : AppState :=
  match s.tool.start_pos, s.tool.end_pos with
  | some sp, some ep =>
    let x1 := min sp.1 ep.1
    let y1 := min sp.2 ep.2
    let x2 := max sp.1 ep.1
    let y2 := max sp.2 ep.2
    if 1 < x2 - x1 ∧ 1 < y2 - y1 then
      let r := QRect.mk4 x1 y1 (x2 - x1) (y2 - y1)
      let s1 := { s with tool := { s.tool with
          selection_rect := some r
          is_floating := true
          scale_factor := 1
          rotation_angle := 0 } }
      let s2 := captureSelectionApp mkMask s1
      emitStatus (readyMessage r.width r.height) s2
    else cancelTool s
  | _, _ => s

/-- BaseSelectTool.mouse_release for an ongoing drag: leave drawing mode and
finalize. -/
def mouseReleaseDrawing (mkMask : QRect → Option Img) (s : AppState) : AppState :=
  if s.tool.drawing then
    finalizeSelection mkMask { s with tool := { s.tool with drawing := false } }
  else s

/-- BaseSelectTool.mouse_release for an active transform gesture: clear all
gesture flags. -/
def mouseReleaseGesture (s : AppState) : AppState :=
  { s with tool := { s.tool with
      is_moving := false
      is_scaling := false
      is_rotating := false
      is_resizing := false
      resize_handle := none
      last_mouse_pos := none } }

/-- BaseSelectTool.on_tool_changed, on_other_operation, on_menu_action and
on_toolbar_button_click all share this body: destroy a floating selection. -/
def onOtherOperation (s : AppState) : AppState :=
  if s.tool.is_floating ∧ s.tool.destroy_on_other_action then cancelSelection s else s

/-! ## Keyboard handling

From BaseSelectTool.key_press.  Keys are the Qt.Key integer codes. -/

def Key_Escape : Int := 0x01000000

def Key_Return : Int := 0x01000004

def Key_Enter : Int := 0x01000005

def Key_Home : Int := 0x01000010

def Key_End : Int := 0x01000011

def Key_Left : Int := 0x01000012

def Key_Up : Int := 0x01000013

def Key_Right : Int := 0x01000014

def Key_Down : Int := 0x01000015

def Key_PageUp : Int := 0x01000016

def Key_PageDown : Int := 0x01000017

def Key_Shift : Int := 0x01000020

def Key_Control : Int := 0x01000021

def Key_Meta : Int := 0x01000022

def Key_Alt : Int := 0x01000023

def Key_CapsLock : Int := 0x01000024

def Key_NumLock : Int := 0x01000025

def Key_ScrollLock : Int := 0x01000026

/-- The non_operation_keys list of BaseSelectTool.key_press, in source
order: modifier keys, the three lock keys, the arrow keys and the paging
keys. -/
def nonOperationKeys : List Int :=
  [Key_Shift, Key_Control, Key_Alt,
   Key_Meta, Key_CapsLock, Key_NumLock,
   Key_ScrollLock,
   Key_Left, Key_Right, Key_Up, Key_Down,
   Key_PageUp, Key_PageDown, Key_Home, Key_End]

/-- BaseSelectTool.key_press: Escape cancels; Enter and Return commit a
floating selection (the commit closure is passed in as painterFunc); any
other key, while floating with auto-destroy enabled and the key outside
non_operation_keys, destroys the selection and reports the event as not
handled.  The returned Bool is the handled flag of the handler. -/
def keyPressBase (painterFunc : Img → Img) (k : Int) (s : AppState) : AppState × Bool :=
  if k = Key_Escape then (cancelTool s, true)
  else if k = Key_Enter ∨ k = Key_Return then
    (if s.tool.is_floating then commitSelectionWith painterFunc s else s, true)
  else if s.tool.is_floating ∧ s.tool.destroy_on_other_action then
    if k ∉ nonOperationKeys then
      if k ≠ Key_Escape ∧ k ≠ Key_Enter ∧ k ≠ Key_Return then (cancelSelection s, false)
      else (s, false)
    else (s, false)
  else (s, false)

open Classical in
/-- The state effect of the floating branch of BaseSelectTool.mouse_press:
apply the action selected by mousePressFloating.  Cursor updates are pure
display state and are not modelled. -/
noncomputable def mousePressFloatingApp (painterFunc : Img → Img) (x y : Int)
    (s : AppState) : AppState :=
  match mousePressFloating s.tool x y with
  | .startScaling => { s with tool := { s.tool with
      is_scaling := true
      last_mouse_pos := some (x, y)
      original_scale := s.tool.scale_factor } }
  | .startRotating => { s with tool := { s.tool with
      is_rotating := true
      last_mouse_pos := some (x, y)
      original_angle := s.tool.rotation_angle } }
  | .startResizing h => { s with tool := { s.tool with
      resize_handle := some h
      is_resizing := true
      last_mouse_pos := some (x, y) } }
  | .startMoving => { s with tool := { s.tool with
      is_moving := true
      last_mouse_pos := some (x, y) } }
  | .commit => commitSelectionWith painterFunc s

/-! ## The polygon selection tool

From ImprovedPolygonSelectTool: the vertex-accumulation mode.  The floating
branch of its mouse_press delegates to the base-class dispatch modelled by
mousePressFloating; the definitions below embed the creation-mode branches,
with is_floating = false as their guard. -/

inductive MouseButton where
  | left
  | right
deriving DecidableEq, Repr

/-- ImprovedPolygonSelectTool.cancel: while creating, discard the vertices
and report; otherwise fall back to the base-class cancel. -/
def cancelPolygon (s : AppState) : AppState :=
  if s.tool.is_creating then
    emitStatus "多边形创建已取消" { s with tool := { s.tool with
        is_creating := false
        has_first_click := false
        points := []
        original_points := [] } }
  else cancelTool s

/-- The minimum of the x coordinates of a vertex list (the list is nonempty
at every call site, guarded by the three-vertex check). -/
def polyMinX (ps : List (Int × Int)) : Int :=
  match ps with
  | [] => 0
  | p :: rest => rest.foldl (fun acc q => min acc q.1) p.1

def polyMinY (ps : List (Int × Int)) : Int :=
  match ps with
  | [] => 0
  | p :: rest => rest.foldl (fun acc q => min acc q.2) p.2

def polyMaxX (ps : List (Int × Int)) : Int :=
  match ps with
  | [] => 0
  | p :: rest => rest.foldl (fun acc q => max acc q.1) p.1

def polyMaxY (ps : List (Int × Int)) : Int :=
  match ps with
  | [] => 0
  | p :: rest => rest.foldl (fun acc q => max acc q.2) p.2

/-- ImprovedPolygonSelectTool._finalize_selection: with fewer than three
vertices report and cancel (unreachable from the guarded callers); otherwise
take the bounding rectangle of the vertices, store the vertices relative to
it, enter floating mode with the transform reset and capture the content
under the polygon mask built by mkMask. -/
def polygonFinalize (mkMask : QRect → Option Img) (s : AppState) : AppState :=
  if s.tool.points.length < 3 then
    cancelPolygon (emitStatus "多边形至少需要3个点" s)
  else
    let minX := polyMinX s.tool.points
    let minY := polyMinY s.tool.points
    let maxX := polyMaxX s.tool.points
    let maxY := polyMaxY s.tool.points
    let r := QRect.mk4 minX minY (maxX - minX) (maxY - minY)
    let s1 := { s with tool := { s.tool with
        selection_rect := some r
        original_points := s.tool.points.map fun p => (p.1 - r.x1, p.2 - r.y1)
        is_floating := true
        is_creating := false
        has_first_click := false
        scale_factor := 1
        rotation_angle := 0 } }
    captureSelectionApp mkMask s1

/-- The first-point status message of the polygon tool. -/
def polyFirstPointMessage : String :=
  "多边形创建中: 已放置第1个点 - 继续左键添加点，右键完成，Enter完成，Esc取消"

/-- The added-point status message of the polygon tool for the given point
count. -/
def polyAddedPointMessage (n : Nat) : String :=
  "多边形创建中: 已放置第" ++ toString n ++ "个点 - 移动鼠标预览，左键添加点，右键完成，Enter完成，Esc取消"

/-- The creation-mode (not floating) branch of
ImprovedPolygonSelectTool.mouse_press: a first left click starts the vertex
list, later left clicks append vertices, a right click finalizes when at
least three vertices exist or cancels when no creation is in progress, and
otherwise does nothing. -/
def polygonCreationPress (mkMask : QRect → Option Img) (button : MouseButton)
    (x y : Int) (s : AppState) : AppState :=
  match button with
  | .left =>
    if s.tool.has_first_click = false then
      emitStatus polyFirstPointMessage
        { s with tool := { s.tool with
            has_first_click := true
            is_creating := true
            points := [(x, y)] } }
    else
      let s1 := { s with tool := { s.tool with
          points := s.tool.points ++ [(x, y)]
          temp_point := none } }
      emitStatus (polyAddedPointMessage s1.tool.points.length) s1
  | .right =>
    if s.tool.is_creating ∧ 3 ≤ s.tool.points.length then polygonFinalize mkMask s
    else if s.tool.is_creating = false then cancelPolygon s
    else s

/-- ImprovedPolygonSelectTool.key_press: Escape cancels creation or defers to
the base class; Enter commits a floating selection, finalizes a creation
with at least three vertices, or reports that three vertices are needed;
every other key defers to the base class. -/
def polygonKeyPress (mkMask : QRect → Option Img) (painterFunc : Img → Img)
    (k : Int) (s : AppState) : AppState × Bool :=
  if k = Key_Escape then
    if s.tool.is_creating then (cancelPolygon s, true)
    else keyPressBase painterFunc k s
  else if k = Key_Enter ∨ k = Key_Return then
    if s.tool.is_floating then (commitSelectionWith painterFunc s, true)
    else if s.tool.is_creating ∧ 3 ≤ s.tool.points.length then
      (polygonFinalize mkMask s, true)
    else if s.tool.is_creating ∧ s.tool.points.length < 3 then
      (emitStatus "多边形至少需要3个点才能完成" s, true)
    else keyPressBase painterFunc k s
  else keyPressBase painterFunc k s

/-! ## The floating-phase step relation

One step for each event-handler path that can run between the creation of a
selection and its commit or cancellation, from mouse_press, mouse_move and
mouse_release of BaseSelectTool.  The commit path is deliberately not a step
of this relation: it is the one mutating exit and is analysed separately via
commitSelectionWith. -/

inductive FloatStep (mkMask : QRect → Option Img) : AppState → AppState → Prop
  | startNew (s : AppState) (x y : Int) :
      s.tool.is_floating = false →
      FloatStep mkMask s { s with tool := startNewSelection x y s.tool }
  | dragEnd (s : AppState) (x y : Int) :
      s.tool.drawing = true →
      FloatStep mkMask s { s with tool := updateDragEnd x y s.tool }
  | finalize (s : AppState) :
      s.tool.drawing = true →
      FloatStep mkMask s (mouseReleaseDrawing mkMask s)
  | pressScale (s : AppState) (x y : Int) :
      s.tool.is_floating = true → scaleHandleHit s.tool x y = true →
      FloatStep mkMask s { s with tool := { s.tool with
        is_scaling := true
        last_mouse_pos := some (x, y)
        original_scale := s.tool.scale_factor } }
  | pressRotate (s : AppState) (x y : Int) :
      s.tool.is_floating = true → scaleHandleHit s.tool x y = false →
      rotateHandleHit s.tool x y = true →
      FloatStep mkMask s { s with tool := { s.tool with
        is_rotating := true
        last_mouse_pos := some (x, y)
        original_angle := s.tool.rotation_angle } }
  | pressResize (s : AppState) (x y : Int) (h : ResizeHandle) :
      s.tool.is_floating = true → scaleHandleHit s.tool x y = false →
      rotateHandleHit s.tool x y = false → getResizeHandleAt s.tool x y = some h →
      FloatStep mkMask s { s with tool := { s.tool with
        resize_handle := some h
        is_resizing := true
        last_mouse_pos := some (x, y) } }
  | pressMove (s : AppState) (x y : Int) :
      s.tool.is_floating = true → scaleHandleHit s.tool x y = false →
      rotateHandleHit s.tool x y = false → getResizeHandleAt s.tool x y = none →
      pointInSelection s.tool x y →
      FloatStep mkMask s { s with tool := { s.tool with
        is_moving := true
        last_mouse_pos := some (x, y) } }
  | moveMoving (s : AppState) (x y : Int) (lp : Int × Int) :
      s.tool.is_moving = true → s.tool.last_mouse_pos = some lp →
      FloatStep mkMask s { s with tool :=
        { moveSelection (x - lp.1) (y - lp.2) s.tool with last_mouse_pos := some (x, y) } }
  | moveResizing (s : AppState) (x y : Int) (lp : Int × Int) (h : ResizeHandle) :
      s.tool.is_resizing = true → s.tool.resize_handle = some h →
      s.tool.last_mouse_pos = some lp →
      FloatStep mkMask s { s with tool :=
        { resizeSelection (x - lp.1) (y - lp.2) s.tool with last_mouse_pos := some (x, y) } }
  | moveScaling (s : AppState) (x y : Int) (lp : Int × Int) :
      s.tool.is_scaling = true → s.tool.last_mouse_pos = some lp →
      FloatStep mkMask s { s with tool := handleScaling x y s.tool }
  | moveRotating (s : AppState) (x y : Int) (lp : Int × Int) :
      s.tool.is_rotating = true → s.tool.last_mouse_pos = some lp →
      FloatStep mkMask s { s with tool := handleRotation x y s.tool }
  | release (s : AppState) :
      (s.tool.is_moving = true ∨ s.tool.is_scaling = true ∨
       s.tool.is_rotating = true ∨ s.tool.is_resizing = true) →
      FloatStep mkMask s (mouseReleaseGesture s)

/-! ## Concrete scenarios -/

/-- The mask generator of the rectangle tool: _create_selection_mask always
succeeds and fills the rectangle. -/
def rectMask (r : QRect) : Option Img := some (createRectMask r)

/-- A controller state over the given layers with a fresh history, as after
document setup. -/
def mkApp (layers : List Layer) (active : Int) : AppState where
  layers := layers
  active := active
  undoStack := []
  redoStack := []
  isRecording := true
  isModified := false
  currentOperationSaved := false
  messages := []
  tool := initTool

/-- A rectangle-select interaction on a single unlocked layer: press at
(sx, sy), drag to (ex, ey), release.  -/
def rectSelectScenario (L : Img) (sx sy ex ey : Int) : AppState :=
  let s0 := mkApp [⟨L, false⟩] 0
  let s1 := { s0 with tool := startNewSelection sx sy s0.tool }
  let s2 := { s1 with tool := updateDragEnd ex ey s1.tool }
  mouseReleaseDrawing rectMask s2

/-- The rectangle-select interaction followed by a move of the floating
selection by (dx, dy) and a commit.  The moving gesture applies
_move_selection with the pointer deltas; (dx, dy) is their total.  The
commit is the untransformed case: the move leaves rotation at 0 and scale
at 1, with mask and content still at the rectangle size. -/
def movedCommitScenario (L : Img) (sx sy ex ey dx dy : Int) : AppState :=
  let sel := rectSelectScenario L sx sy ex ey
  commitSelectionUntransformed { sel with tool := moveSelection dx dy sel.tool }

def redPix : Pixel := ⟨255, 255, 0, 0⟩

/-- The 100 by 100 opaque red canvas of the end-to-end scenario in the
specification. -/
def redCanvas : Img := solidImg 100 100 redPix

/-- The state of the specification scenario: select (20,20)-(60,60) on the
red canvas. -/
def floatingApp : AppState := rectSelectScenario redCanvas 20 20 60 60

/-! ## Helper lemmas -/

theorem pyFMod_eq_fract (a b : ℝ) (hb : b ≠ 0) :
    pyFMod a b = b * Int.fract (a / b) := by
  unfold pyFMod Int.fract
  field_simp

theorem pyFMod_nonneg (a b : ℝ) (hb : 0 < b) : 0 ≤ pyFMod a b := by
  rw [pyFMod_eq_fract a b hb.ne.symm]
  exact mul_nonneg hb.le (Int.fract_nonneg _)

theorem pyFMod_lt (a b : ℝ) (hb : 0 < b) : pyFMod a b < b := by
  rw [pyFMod_eq_fract a b hb.ne.symm]
  calc b * Int.fract (a / b) < b * 1 :=
        mul_lt_mul_of_pos_left (Int.fract_lt_one _) hb
    _ = b := mul_one b

/-- The characterization of the rectangle-select interaction when the drag
extent is accepted. -/
theorem rectSelectScenario_eq (L : Img) (sx sy ex ey : Int)
    (hw : 1 < max sx ex - min sx ex) (hh : 1 < max sy ey - min sy ey) :
    rectSelectScenario L sx sy ex ey =
      { layers := [⟨L, false⟩], active := 0, undoStack := [], redoStack := [],
        isRecording := true, isModified := false, currentOperationSaved := false,
        messages := [readyMessage (QRect.mk4 (min sx ex) (min sy ey)
          (max sx ex - min sx ex) (max sy ey - min sy ey)).width
          (QRect.mk4 (min sx ex) (min sy ey)
          (max sx ex - min sx ex) (max sy ey - min sy ey)).height],
        tool := { initTool with
          start_pos := some (sx, sy), end_pos := some (ex, ey), drawing := false,
          selection_rect := some (QRect.mk4 (min sx ex) (min sy ey)
            (max sx ex - min sx ex) (max sy ey - min sy ey)),
          is_floating := true,
          selection_mask := some (createRectMask (QRect.mk4 (min sx ex) (min sy ey)
            (max sx ex - min sx ex) (max sy ey - min sy ey))),
          selected_content := some (captureContent L (QRect.mk4 (min sx ex) (min sy ey)
            (max sx ex - min sx ex) (max sy ey - min sy ey))
            (createRectMask (QRect.mk4 (min sx ex) (min sy ey)
            (max sx ex - min sx ex) (max sy ey - min sy ey)))) } } := by
  unfold rectSelectScenario mkApp mouseReleaseDrawing finalizeSelection
  simp only [startNewSelection, updateDragEnd, initTool]
  simp only [if_pos (And.intro hw hh)]
  unfold captureSelectionApp
  simp [pyGet, rectMask, emitStatus]

/-- The pixel effect of the commit draw after a pure move: the erase and the
paint both land on the moved rectangle; a full-coverage mask makes the erase
total there, so the moved rectangle receives the captured content and every
other pixel keeps its old value. -/
theorem commitDraw_moved_pix (L : Img) (r : QRect) (dx dy x y : Int) :
    ((r.translate dx dy).contains x y = true →
      (commitDrawUntransformed (r.translate dx dy) (some (createRectMask r))
        (captureContent L r (createRectMask r)) L).pix x y = L.pix (x - dx) (y - dy)) ∧
    ((r.translate dx dy).contains x y = false →
      (commitDrawUntransformed (r.translate dx dy) (some (createRectMask r))
        (captureContent L r (createRectMask r)) L).pix x y = L.pix x y) := by
  constructor
  · intro h
    simp only [commitDrawUntransformed, h, if_true, createRectMask, captureContent]
    rw [dstOut_full_cover, srcOver_transparent, dstIn_full_cover]
    congr 1 <;> simp [QRect.translate] <;> ring
  · intro h
    simp [commitDrawUntransformed, h]

/-- The full state after move and commit: one history snapshot of the
pre-commit layers, the commit draw applied to the layer, the modified flag
set, and the floating state cleared. -/
theorem movedCommitScenario_eq (L : Img) (sx sy ex ey dx dy : Int)
    (hw : 1 < max sx ex - min sx ex) (hh : 1 < max sy ey - min sy ey) :
    movedCommitScenario L sx sy ex ey dx dy =
      { layers := [⟨commitDrawUntransformed
            ((QRect.mk4 (min sx ex) (min sy ey) (max sx ex - min sx ex)
              (max sy ey - min sy ey)).translate dx dy)
            (some (createRectMask (QRect.mk4 (min sx ex) (min sy ey)
              (max sx ex - min sx ex) (max sy ey - min sy ey))))
            (captureContent L (QRect.mk4 (min sx ex) (min sy ey)
              (max sx ex - min sx ex) (max sy ey - min sy ey))
              (createRectMask (QRect.mk4 (min sx ex) (min sy ey)
                (max sx ex - min sx ex) (max sy ey - min sy ey)))) L, false⟩],
        active := 0,
        undoStack := [⟨[⟨L, false⟩], 0⟩],
        redoStack := [],
        isRecording := true,
        isModified := true,
        currentOperationSaved := false,
        messages := [readyMessage (QRect.mk4 (min sx ex) (min sy ey)
          (max sx ex - min sx ex) (max sy ey - min sy ey)).width
          (QRect.mk4 (min sx ex) (min sy ey)
          (max sx ex - min sx ex) (max sy ey - min sy ey)).height, "选区已取消"],
        tool := { initTool with
          start_pos := some (sx, sy), end_pos := some (ex, ey), drawing := false } } := by
  unfold movedCommitScenario
  rw [rectSelectScenario_eq L sx sy ex ey hw hh]
  simp only [moveSelection, commitSelectionUntransformed, commitSelectionWith,
    commitDrawUntransformed, saveToHistory, drawOnActiveLayer, cancelSelection, emitStatus]
  norm_num [MAX_HISTORY, List.isEmpty, QRect.translate, initTool]

/-! ## Claim C1 -/

/-- C1 counterexample: in the end-to-end scenario of the claim (opaque red
100x100 layer, rectangle select of (20,20)-(60,60), move by (+30,+10),
commit), the pixel (25,25) — originally inside the selection — is still the
opaque red layer pixel after the commit, not transparent: the erase phase is
applied at the moved location, not at the original capture location. -/
theorem commit_after_move_original_pixel_remains :
    (movedCommitScenario redCanvas 20 20 60 60 30 10).layers.map
        (fun lay => lay.image.pix 25 25) = [redPix] ∧
      redPix.a = 255 ∧ redPix ≠ Pixel.transparent := by
  refine ⟨?_, rfl, by decide⟩
  rfl

/-- C1 amended: committing a floating rectangle selection that has been moved
by (dx, dy) performs both the erase phase and the paint phase at the current
(moved) rectangle: every pixel inside the moved rectangle receives the
captured content (the erase there is total because the rectangle mask has
full coverage), every pixel outside it — including the original capture
footprint — keeps its old value, one history snapshot of the pre-commit
layers is taken, and the modified flag is set. -/
theorem commit_after_move_pixels (L : Img) (sx sy ex ey dx dy x y : Int)
    (hw : 1 < max sx ex - min sx ex) (hh : 1 < max sy ey - min sy ey) :
    (movedCommitScenario L sx sy ex ey dx dy).undoStack =
        [⟨[⟨L, false⟩], 0⟩] ∧
      (movedCommitScenario L sx sy ex ey dx dy).isModified = true ∧
      (((QRect.mk4 (min sx ex) (min sy ey) (max sx ex - min sx ex)
            (max sy ey - min sy ey)).translate dx dy).contains x y = true →
        (movedCommitScenario L sx sy ex ey dx dy).layers.map
          (fun lay => lay.image.pix x y) = [L.pix (x - dx) (y - dy)]) ∧
      (((QRect.mk4 (min sx ex) (min sy ey) (max sx ex - min sx ex)
            (max sy ey - min sy ey)).translate dx dy).contains x y = false →
        (movedCommitScenario L sx sy ex ey dx dy).layers.map
          (fun lay => lay.image.pix x y) = [L.pix x y]) := by
  rw [movedCommitScenario_eq L sx sy ex ey dx dy hw hh]
  refine ⟨rfl, rfl, ?_, ?_⟩
  · intro h
    simp only [List.map]
    rw [(commitDraw_moved_pix L _ dx dy x y).1 h]
  · intro h
    simp only [List.map]
    rw [(commitDraw_moved_pix L _ dx dy x y).2 h]

/-- C1 amended, instantiated at the scenario of the claim: after the move by
(+30,+10), the pixel (55, 35) now inside the moved rectangle holds the moved
red content and the pixel (25, 25) of the original footprint keeps its layer
value. -/
theorem commit_after_move_pixels_witness :
    (movedCommitScenario redCanvas 20 20 60 60 30 10).layers.map
        (fun lay => lay.image.pix 55 35) = [redCanvas.pix 25 25] ∧
      (movedCommitScenario redCanvas 20 20 60 60 30 10).layers.map
        (fun lay => lay.image.pix 25 25) = [redCanvas.pix 25 25] ∧
      (movedCommitScenario redCanvas 20 20 60 60 30 10).undoStack =
        [⟨[⟨redCanvas, false⟩], 0⟩] := by
  have h := commit_after_move_pixels redCanvas 20 20 60 60 30 10 55 35
    (by decide) (by decide)
  have h2 := commit_after_move_pixels redCanvas 20 20 60 60 30 10 25 25
    (by decide) (by decide)
  exact ⟨h.2.2.1 (by decide), h2.2.2.2 (by decide), h.1⟩

/-! ## Claim C2 -/

/-- The transform-state invariant of the specification: the scale factor
stays in [0.1, 10.0] and the rotation angle stays in [0, 360). -/
def transformInv (s : AppState) : Prop :=
  1 / 10 ≤ s.tool.scale_factor ∧ s.tool.scale_factor ≤ 10 ∧
    0 ≤ s.tool.rotation_angle ∧ s.tool.rotation_angle < 360

theorem handleScaling_fields (x y : Int) (t : ToolState)
    (h1 : 1 / 10 ≤ t.scale_factor) (h2 : t.scale_factor ≤ 10) :
    1 / 10 ≤ (handleScaling x y t).scale_factor ∧
      (handleScaling x y t).scale_factor ≤ 10 ∧
      (handleScaling x y t).rotation_angle = t.rotation_angle := by
  unfold handleScaling
  cases t.selection_rect with
  | none => exact ⟨h1, h2, rfl⟩
  | some r =>
    cases t.last_mouse_pos with
    | none => exact ⟨h1, h2, rfl⟩
    | some lp =>
      simp only
      split
      · refine ⟨?_, ?_, rfl⟩
        · calc (1 / 10 : ℝ) = 0.1 := by norm_num
            _ ≤ _ := le_max_left _ _
        · refine max_le (by norm_num) ?_
          exact le_trans (min_le_right _ _) (by norm_num)
      · exact ⟨h1, h2, rfl⟩

theorem handleRotation_fields (x y : Int) (t : ToolState)
    (h1 : 0 ≤ t.rotation_angle) (h2 : t.rotation_angle < 360) :
    0 ≤ (handleRotation x y t).rotation_angle ∧
      (handleRotation x y t).rotation_angle < 360 ∧
      (handleRotation x y t).scale_factor = t.scale_factor := by
  unfold handleRotation
  cases t.selection_rect with
  | none => exact ⟨h1, h2, rfl⟩
  | some r =>
    cases t.last_mouse_pos with
    | none => exact ⟨h1, h2, rfl⟩
    | some lp =>
      exact ⟨pyFMod_nonneg _ _ (by norm_num), pyFMod_lt _ _ (by norm_num), rfl⟩

theorem captureSelectionApp_transform (mk : QRect → Option Img) (s : AppState) :
    (captureSelectionApp mk s).tool.scale_factor = s.tool.scale_factor ∧
      (captureSelectionApp mk s).tool.rotation_angle = s.tool.rotation_angle := by
  unfold captureSelectionApp
  cases s.tool.selection_rect with
  | none => exact ⟨rfl, rfl⟩
  | some r =>
    simp only
    split
    · exact ⟨rfl, rfl⟩
    · cases pyGet s.layers s.active with
      | none => exact ⟨rfl, rfl⟩
      | some al =>
        cases mk r with
        | none => exact ⟨rfl, rfl⟩
        | some m => exact ⟨rfl, rfl⟩

theorem finalizeSelection_transformInv (mk : QRect → Option Img) (s : AppState)
    (hinv : transformInv s) : transformInv (finalizeSelection mk s) := by
  unfold finalizeSelection
  cases hsp : s.tool.start_pos with
  | none => exact hinv
  | some sp =>
    cases hep : s.tool.end_pos with
    | none => exact hinv
    | some ep =>
      simp only
      split
      · have hc := captureSelectionApp_transform mk
          { s with tool := { s.tool with
              selection_rect := some (QRect.mk4 (min sp.1 ep.1) (min sp.2 ep.2)
                (max sp.1 ep.1 - min sp.1 ep.1) (max sp.2 ep.2 - min sp.2 ep.2))
              is_floating := true
              scale_factor := 1
              rotation_angle := 0 } }
        unfold transformInv
        rw [show ∀ m t, (emitStatus m t).tool = t.tool from fun m t => rfl]
        rw [hc.1, hc.2]
        norm_num
      · unfold cancelTool cancelSelection emitStatus transformInv
        norm_num

theorem floatStep_transformInv (mk : QRect → Option Img) (s s' : AppState)
    (hstep : FloatStep mk s s') (hinv : transformInv s) : transformInv s' := by
  obtain ⟨h1, h2, h3, h4⟩ := hinv
  cases hstep with
  | startNew x y h => exact ⟨h1, h2, h3, h4⟩
  | dragEnd x y h => exact ⟨h1, h2, h3, h4⟩
  | finalize h =>
    unfold mouseReleaseDrawing
    rw [h]
    simp only [if_true]
    exact finalizeSelection_transformInv mk _ ⟨h1, h2, h3, h4⟩
  | pressScale x y hf hh => exact ⟨h1, h2, h3, h4⟩
  | pressRotate x y hf hh1 hh2 => exact ⟨h1, h2, h3, h4⟩
  | pressResize x y h hf hh1 hh2 hh3 => exact ⟨h1, h2, h3, h4⟩
  | pressMove x y hf hh1 hh2 hh3 hh4 => exact ⟨h1, h2, h3, h4⟩
  | moveMoving x y lp hm hl =>
    unfold moveSelection
    cases s.tool.selection_rect with
    | none => exact ⟨h1, h2, h3, h4⟩
    | some r => exact ⟨h1, h2, h3, h4⟩
  | moveResizing x y lp h hm hh hl =>
    unfold resizeSelection
    cases s.tool.selection_rect with
    | none =>
      cases s.tool.resize_handle with
      | none => exact ⟨h1, h2, h3, h4⟩
      | some hd => exact ⟨h1, h2, h3, h4⟩
    | some r =>
      cases s.tool.resize_handle with
      | none => exact ⟨h1, h2, h3, h4⟩
      | some hd => exact ⟨h1, h2, h3, h4⟩
  | moveScaling x y lp hm hl =>
    have h := handleScaling_fields x y s.tool h1 h2
    exact ⟨h.1, h.2.1, h.2.2 ▸ h3, h.2.2 ▸ h4⟩
  | moveRotating x y lp hm hl =>
    have h := handleRotation_fields x y s.tool h3 h4
    exact ⟨h.2.2 ▸ h1, h.2.2 ▸ h2, h.1, h.2.1⟩
  | release h => exact ⟨h1, h2, h3, h4⟩

/-- C2: over every sequence of floating-phase gesture events the transform
invariant is preserved — scale_factor stays in [0.1, 10.0] and
rotation_angle stays in [0, 360) — and whenever a new selection is captured
by _finalize_selection both are reset to 1.0 and 0.0. -/
theorem transform_clamp_invariants :
    (∀ (mk : QRect → Option Img) (s0 s : AppState), transformInv s0 →
      Relation.ReflTransGen (FloatStep mk) s0 s → transformInv s) ∧
    (∀ (mk : QRect → Option Img) (s : AppState) (sp ep : Int × Int),
      s.tool.start_pos = some sp → s.tool.end_pos = some ep →
      1 < max sp.1 ep.1 - min sp.1 ep.1 → 1 < max sp.2 ep.2 - min sp.2 ep.2 →
      (finalizeSelection mk s).tool.scale_factor = 1 ∧
        (finalizeSelection mk s).tool.rotation_angle = 0) := by
  constructor
  · intro mk s0 s h0 hreach
    induction hreach with
    | refl => exact h0
    | tail hsteps hstep ih => exact floatStep_transformInv mk _ _ hstep ih
  · intro mk s sp ep hsp hep hw hh
    unfold finalizeSelection
    rw [hsp, hep]
    simp only [if_pos (And.intro hw hh)]
    have hc := captureSelectionApp_transform mk
      { s with tool := { s.tool with
          selection_rect := some (QRect.mk4 (min sp.1 ep.1) (min sp.2 ep.2)
            (max sp.1 ep.1 - min sp.1 ep.1) (max sp.2 ep.2 - min sp.2 ep.2))
          is_floating := true
          scale_factor := 1
          rotation_angle := 0 } }
    rw [show ∀ m t, (emitStatus m t).tool = t.tool from fun m t => rfl]
    rw [hc.1, hc.2]
    exact ⟨rfl, rfl⟩

/-- C2 instantiated: the invariant holds at a freshly initialized controller
state, and the finalization of the drag from (20,20) to (60,60) resets the
transform. -/
theorem transform_clamp_invariants_witness :
    transformInv (mkApp [⟨redCanvas, false⟩] 0) ∧
      (finalizeSelection rectMask { mkApp [⟨redCanvas, false⟩] 0 with
        tool := updateDragEnd 60 60 (startNewSelection 20 20 initTool) }).tool.scale_factor = 1 := by
  constructor
  · exact transform_clamp_invariants.1 rectMask _ _
      (by constructor <;> norm_num [mkApp, initTool]) Relation.ReflTransGen.refl
  · exact (transform_clamp_invariants.2 rectMask _ (20, 20) (60, 60) rfl rfl
      (by decide) (by decide)).1

/-! ## Claim C3 -/

theorem captureSelectionApp_frame (mk : QRect → Option Img) (s : AppState) :
    (captureSelectionApp mk s).layers = s.layers ∧
      (captureSelectionApp mk s).undoStack = s.undoStack := by
  unfold captureSelectionApp
  cases s.tool.selection_rect with
  | none => exact ⟨rfl, rfl⟩
  | some r =>
    simp only
    split
    · exact ⟨rfl, rfl⟩
    · cases pyGet s.layers s.active with
      | none => exact ⟨rfl, rfl⟩
      | some al =>
        cases mk r with
        | none => exact ⟨rfl, rfl⟩
        | some m => exact ⟨rfl, rfl⟩

theorem finalizeSelection_frame (mk : QRect → Option Img) (s : AppState) :
    (finalizeSelection mk s).layers = s.layers ∧
      (finalizeSelection mk s).undoStack = s.undoStack := by
  unfold finalizeSelection
  cases s.tool.start_pos with
  | none => exact ⟨rfl, rfl⟩
  | some sp =>
    cases s.tool.end_pos with
    | none => exact ⟨rfl, rfl⟩
    | some ep =>
      simp only
      split
      · have hc := captureSelectionApp_frame mk
          { s with tool := { s.tool with
              selection_rect := some (QRect.mk4 (min sp.1 ep.1) (min sp.2 ep.2)
                (max sp.1 ep.1 - min sp.1 ep.1) (max sp.2 ep.2 - min sp.2 ep.2))
              is_floating := true
              scale_factor := 1
              rotation_angle := 0 } }
        exact ⟨hc.1, hc.2⟩
      · exact ⟨rfl, rfl⟩

/-- Every floating-phase gesture step leaves the layer buffers and the undo
stack untouched: only the commit path mutates them. -/
theorem floatStep_frame (mk : QRect → Option Img) (s s' : AppState)
    (hstep : FloatStep mk s s') :
    s'.layers = s.layers ∧ s'.undoStack = s.undoStack := by
  cases hstep with
  | startNew x y h => exact ⟨rfl, rfl⟩
  | dragEnd x y h => exact ⟨rfl, rfl⟩
  | finalize h =>
    unfold mouseReleaseDrawing
    rw [h]
    simp only [if_true]
    exact finalizeSelection_frame mk _
  | pressScale x y hf hh => exact ⟨rfl, rfl⟩
  | pressRotate x y hf hh1 hh2 => exact ⟨rfl, rfl⟩
  | pressResize x y h hf hh1 hh2 hh3 => exact ⟨rfl, rfl⟩
  | pressMove x y hf hh1 hh2 hh3 hh4 => exact ⟨rfl, rfl⟩
  | moveMoving x y lp hm hl => exact ⟨rfl, rfl⟩
  | moveResizing x y lp h hm hh hl => exact ⟨rfl, rfl⟩
  | moveScaling x y lp hm hl => exact ⟨rfl, rfl⟩
  | moveRotating x y lp hm hl => exact ⟨rfl, rfl⟩
  | release h => exact ⟨rfl, rfl⟩

/-- C3: after any sequence of floating-phase events (creation, capture,
moves, scales, rotations, resizes), every cancellation path — the Escape key
handler, the other-operation and tool-switch notifications, and the direct
cancel — leaves the layer pixel buffers exactly as before the selection
began and appends nothing to the undo history. -/
theorem cancel_leaves_no_trace (mk : QRect → Option Img) (painterFunc : Img → Img)
    (s0 s : AppState) (h : Relation.ReflTransGen (FloatStep mk) s0 s) :
    ((keyPressBase painterFunc Key_Escape s).1.layers = s0.layers ∧
      (keyPressBase painterFunc Key_Escape s).1.undoStack = s0.undoStack) ∧
    ((onOtherOperation s).layers = s0.layers ∧
      (onOtherOperation s).undoStack = s0.undoStack) ∧
    ((cancelTool s).layers = s0.layers ∧
      (cancelTool s).undoStack = s0.undoStack) := by
  have hframe : s.layers = s0.layers ∧ s.undoStack = s0.undoStack := by
    induction h with
    | refl => exact ⟨rfl, rfl⟩
    | tail hsteps hstep ih =>
      have hf := floatStep_frame mk _ _ hstep
      exact ⟨hf.1.trans ih.1, hf.2.trans ih.2⟩
  refine ⟨?_, ?_, ?_⟩
  · unfold keyPressBase
    simp only [if_pos rfl]
    exact ⟨hframe.1, hframe.2⟩
  · unfold onOtherOperation
    split
    · exact ⟨hframe.1, hframe.2⟩
    · exact ⟨hframe.1, hframe.2⟩
  · exact ⟨hframe.1, hframe.2⟩

/-- C3 instantiated at the end of the specification scenario state: Escape on
the floating selection keeps the single red layer and the empty undo stack of
the initial state. -/
theorem cancel_leaves_no_trace_witness :
    (keyPressBase id Key_Escape floatingApp).1.layers =
        (mkApp [⟨redCanvas, false⟩] 0).layers ∧
      (keyPressBase id Key_Escape floatingApp).1.undoStack = [] := by
  have hstep : Relation.ReflTransGen (FloatStep rectMask)
      (mkApp [⟨redCanvas, false⟩] 0) floatingApp := by
    refine Relation.ReflTransGen.head (FloatStep.startNew _ 20 20 rfl) ?_
    refine Relation.ReflTransGen.head (FloatStep.dragEnd _ 60 60 rfl) ?_
    exact Relation.ReflTransGen.single (FloatStep.finalize _ rfl)
  have h := cancel_leaves_no_trace rectMask id
    (mkApp [⟨redCanvas, false⟩] 0) floatingApp hstep
  exact ⟨h.1.1, h.1.2⟩

/-! ## Claim C4 -/

/-- The locked-layer rejection path of draw_on_active_layer: a valid index
whose layer is locked yields only the rejection status message. -/
theorem drawOnActiveLayer_locked (f : Img → Img) (sv b1 b2 : Bool)
    (s : AppState) (al : Layer)
    (hi : 0 ≤ s.active) (hal : s.layers.get? s.active.toNat = some al)
    (hlock : al.locked = true) :
    drawOnActiveLayer f sv b1 b2 s = emitStatus "图层已锁定，无法绘制" s := by
  have hlt : s.active.toNat < s.layers.length := (List.get?_eq_some.mp hal).1
  unfold drawOnActiveLayer
  rw [if_neg (by push_neg; refine ⟨hi, ?_⟩; omega)]
  simp only
  rw [hal]
  simp only [hlock, if_true]

/-- C4 amended: committing a floating selection onto a locked active layer is
rejected by draw_on_active_layer with the locked-layer status message and no
pixel mutation, and the modified flag is untouched — but _commit_selection
saves history before the lock check, so one snapshot is pushed onto the undo
stack, the redo stack is cleared, and the floating selection is still
destroyed (with its cancellation message). -/
theorem locked_commit_rejected (painterFunc : Img → Img) (s : AppState) (al : Layer)
    (hf : s.tool.is_floating = true)
    (hr : s.tool.selection_rect.isSome = true)
    (hc : s.tool.selected_content.isSome = true)
    (hrec : s.isRecording = true)
    (hi : 0 ≤ s.active)
    (hal : s.layers.get? s.active.toNat = some al)
    (hlock : al.locked = true)
    (hlen : s.undoStack.length < MAX_HISTORY) :
    (commitSelectionWith painterFunc s).layers = s.layers ∧
      (commitSelectionWith painterFunc s).isModified = s.isModified ∧
      (commitSelectionWith painterFunc s).messages =
        s.messages ++ ["图层已锁定，无法绘制", "选区已取消"] ∧
      (commitSelectionWith painterFunc s).undoStack =
        s.undoStack ++ [⟨s.layers, s.active⟩] ∧
      (commitSelectionWith painterFunc s).redoStack = [] ∧
      (commitSelectionWith painterFunc s).tool.is_floating = false := by
  have hlt : s.active.toNat < s.layers.length := (List.get?_eq_some.mp hal).1
  have hne : s.layers.isEmpty = false := by
    cases hl : s.layers with
    | nil => rw [hl] at hlt; simp at hlt
    | cons a as => rfl
  have hguard : (!s.tool.is_floating || s.tool.selection_rect.isNone ||
      s.tool.selected_content.isNone) = false := by
    rw [hf, ((Option.isNone_eq_false_iff _).mpr hr),
      ((Option.isNone_eq_false_iff _).mpr hc)]
    rfl
  have hsave : saveToHistory s =
      { s with undoStack := s.undoStack ++ [⟨s.layers, s.active⟩], redoStack := [] } := by
    unfold saveToHistory
    rw [if_neg (by rw [hrec, hne]; simp)]
    simp only [List.length_append, List.length_singleton]
    rw [if_neg (by omega)]
  unfold commitSelectionWith
  rw [hguard]
  simp only [Bool.false_eq_true, if_false]
  rw [hsave]
  rw [drawOnActiveLayer_locked painterFunc false false false
    { s with undoStack := s.undoStack ++ [⟨s.layers, s.active⟩], redoStack := [] }
    al hi hal hlock]
  unfold cancelSelection emitStatus
  simp [List.append_assoc]

/-- The specification scenario performed on a locked layer, with one stale
redo entry from an earlier undo. -/
def lockedFloatingApp : AppState :=
  { mouseReleaseDrawing rectMask { mkApp [⟨redCanvas, true⟩] 0 with
      tool := updateDragEnd 60 60 (startNewSelection 20 20 initTool) } with
    redoStack := [⟨[⟨redCanvas, true⟩], 0⟩] }

/-- C4 counterexample: committing the floating selection of the locked-layer
scenario emits the rejection message and leaves the pixels alone, but the
undo stack grows from zero to one entry and the redo stack is cleared — the
overall state is not unchanged. -/
theorem locked_commit_mutates_history_cex :
    lockedFloatingApp.undoStack.length = 0 ∧
      lockedFloatingApp.redoStack.length = 1 ∧
      (commitSelectionWith id lockedFloatingApp).undoStack.length = 1 ∧
      (commitSelectionWith id lockedFloatingApp).redoStack.length = 0 ∧
      (commitSelectionWith id lockedFloatingApp).layers = lockedFloatingApp.layers ∧
      (commitSelectionWith id lockedFloatingApp).messages =
        lockedFloatingApp.messages ++ ["图层已锁定，无法绘制", "选区已取消"] :=
  ⟨rfl, rfl, rfl, rfl, rfl, rfl⟩

/-- C4 amended, instantiated at the locked-layer scenario. -/
theorem locked_commit_rejected_witness :
    (commitSelectionWith id lockedFloatingApp).layers = lockedFloatingApp.layers ∧
      (commitSelectionWith id lockedFloatingApp).undoStack =
        lockedFloatingApp.undoStack ++ [⟨lockedFloatingApp.layers, lockedFloatingApp.active⟩] ∧
      (commitSelectionWith id lockedFloatingApp).redoStack = [] := by
  have h := locked_commit_rejected id lockedFloatingApp ⟨redCanvas, true⟩
    rfl rfl rfl rfl (by decide) rfl rfl (by decide)
  exact ⟨h.1, h.2.2.2.1, h.2.2.2.2.1⟩

/-! ## Claim C5 -/

theorem QRect.translate_width (r : QRect) (dx dy : Int) :
    (r.translate dx dy).width = r.width := by
  simp only [QRect.translate, QRect.width]
  ring

theorem QRect.translate_height (r : QRect) (dx dy : Int) :
    (r.translate dx dy).height = r.height := by
  simp only [QRect.translate, QRect.height]
  ring

/-- The mask-size invariant of the specification: the stored selection mask
has exactly the size of the current selection rectangle. -/
def maskSizeInv (t : ToolState) : Prop :=
  ∀ m r, t.selection_mask = some m → t.selection_rect = some r →
    m.w = r.width ∧ m.h = r.height

/-- C5 counterexample: in the floating state of the specification scenario
(rectangle (20,20)-(60,60), mask 40 by 40), one resize drag of the right
handle by dx = 10 leaves the claimed invariant false: the selection
rectangle is 50 wide while the stored mask is still 40 wide. -/
theorem resize_breaks_mask_size_cex :
    ((resizeSelection 10 0 { floatingApp.tool with
        is_resizing := true
        resize_handle := some ResizeHandle.r
        last_mouse_pos := some (59, 30) }).selection_rect.map QRect.width = some 50) ∧
      ((resizeSelection 10 0 { floatingApp.tool with
        is_resizing := true
        resize_handle := some ResizeHandle.r
        last_mouse_pos := some (59, 30) }).selection_mask.map Img.w = some 40) ∧
      (floatingApp.tool.selection_rect.map QRect.width = some 40) ∧
      (floatingApp.tool.selection_mask.map Img.w = some 40) :=
  ⟨rfl, rfl, rfl, rfl⟩

/-- C5 amended: the invariant mask size = boundingRect size is established by
capture and preserved by move, scale and rotate events, but a resize mutates
the selection rectangle without regenerating the stored mask, which keeps
its capture-time size (the mask is only rescaled to the current rectangle
size at commit time, inside draw_transformed_selection). -/
theorem mask_size_invariant_amended :
    (∀ (t : ToolState) (dx dy : Int), maskSizeInv t →
      maskSizeInv (moveSelection dx dy t)) ∧
    (∀ (t : ToolState) (x y : Int), maskSizeInv t →
      maskSizeInv (handleScaling x y t)) ∧
    (∀ (t : ToolState) (x y : Int), maskSizeInv t →
      maskSizeInv (handleRotation x y t)) ∧
    (∀ (s : AppState) (r : QRect) (al : Layer),
      s.tool.selection_rect = some r → pyGet s.layers s.active = some al →
      s.layers.isEmpty = false →
      maskSizeInv (captureSelectionApp rectMask s).tool) := by
  refine ⟨?_, ?_, ?_, ?_⟩
  · intro t dx dy hinv
    unfold moveSelection
    cases hr : t.selection_rect with
    | none => exact hinv
    | some r =>
      intro m r' h1 h2
      have hm := hinv m r h1 hr
      obtain rfl := Option.some.inj h2
      exact ⟨hm.1.trans (QRect.translate_width r dx dy).symm,
        hm.2.trans (QRect.translate_height r dx dy).symm⟩
  · intro t x y hinv
    unfold handleScaling
    cases hr : t.selection_rect with
    | none => exact hinv
    | some r =>
      cases t.last_mouse_pos with
      | none => exact hinv
      | some lp =>
        simp only
        split
        · intro m r' h1 h2
          exact hinv m r' h1 (hr.trans h2)
        · exact hinv
  · intro t x y hinv
    unfold handleRotation
    cases hr : t.selection_rect with
    | none => exact hinv
    | some r =>
      cases t.last_mouse_pos with
      | none => exact hinv
      | some lp =>
        intro m r' h1 h2
        exact hinv m r' h1 (hr.trans h2)
  · intro s r al hr hal hne
    unfold captureSelectionApp
    rw [hr]
    simp only [hne, Bool.false_eq_true, if_false, hal, rectMask]
    intro m r' h1 h2
    obtain rfl := Option.some.inj h1
    obtain rfl := Option.some.inj (hr.symm.trans h2)
    exact ⟨rfl, rfl⟩

/-- C5 amended, instantiated: moving the captured 40 by 40 selection of the
specification scenario preserves the invariant. -/
theorem mask_size_invariant_amended_witness :
    maskSizeInv (moveSelection 30 10 floatingApp.tool) := by
  refine mask_size_invariant_amended.1 floatingApp.tool 30 10 ?_
  intro m r h1 h2
  constructor
  · rw [show m = createRectMask (QRect.mk4 20 20 40 40) from
      Option.some_injective _ h1.symm]
    rw [show r = QRect.mk4 20 20 40 40 from Option.some_injective _ h2.symm]
    rfl
  · rw [show m = createRectMask (QRect.mk4 20 20 40 40) from
      Option.some_injective _ h1.symm]
    rw [show r = QRect.mk4 20 20 40 40 from Option.some_injective _ h2.symm]
    rfl

/-! ## Claim C6 -/

/-- C6: while a selection is floating, the pointer-down hit tests are
evaluated in priority order with the first match winning: the uniform-scale
handle starts scaling; otherwise the rotate handle starts rotating;
otherwise the first matching of the eight resize handles starts resizing;
otherwise a point inside the transformed selection region starts moving;
otherwise the selection is committed. -/
theorem mouse_press_priority (st : ToolState) (x y : Int)
    (_hf : st.is_floating = true) :
    (scaleHandleHit st x y = true →
      mousePressFloating st x y = SelAction.startScaling) ∧
    (scaleHandleHit st x y = false → rotateHandleHit st x y = true →
      mousePressFloating st x y = SelAction.startRotating) ∧
    (∀ h, scaleHandleHit st x y = false → rotateHandleHit st x y = false →
      getResizeHandleAt st x y = some h →
      mousePressFloating st x y = SelAction.startResizing h) ∧
    (scaleHandleHit st x y = false → rotateHandleHit st x y = false →
      getResizeHandleAt st x y = none → pointInSelection st x y →
      mousePressFloating st x y = SelAction.startMoving) ∧
    (scaleHandleHit st x y = false → rotateHandleHit st x y = false →
      getResizeHandleAt st x y = none → ¬pointInSelection st x y →
      mousePressFloating st x y = SelAction.commit) := by
  refine ⟨?_, ?_, ?_, ?_, ?_⟩
  · intro h1
    unfold mousePressFloating
    rw [h1]
    rfl
  · intro h1 h2
    unfold mousePressFloating
    rw [h1, h2]
    rfl
  · intro h h1 h2 h3
    unfold mousePressFloating
    rw [h1, h2, h3]
    rfl
  · intro h1 h2 h3 h4
    unfold mousePressFloating
    rw [h1, h2, h3]
    simp only [Bool.false_eq_true, if_false]
    exact if_pos h4
  · intro h1 h2 h3 h4
    unfold mousePressFloating
    rw [h1, h2, h3]
    simp only [Bool.false_eq_true, if_false]
    exact if_neg h4

/-- The floating state of the specification scenario with the handle
rectangles as _update_handles lays them out for the untransformed
40 by 40 selection at (20,20): scale handle hot zone at the bottom-right
corner, rotate handle hot zone beyond the top-right corner. -/
def handleTestTool : ToolState :=
  { floatingApp.tool with
    scale_handle_rect := some (QRect.mk4 47 47 24 24)
    rotate_handle_rect := some (QRect.mk4 62 2 24 24)
    resize_handles := [(ResizeHandle.tl, QRect.mk4 14 14 12 12),
      (ResizeHandle.br, QRect.mk4 53 53 12 12)] }

/-- C6 instantiated: a pointer-down at (50, 50), inside both the scale
handle hot zone and the bottom-right resize handle hot zone, starts scaling
— the scale handle wins by priority. -/
theorem mouse_press_priority_witness :
    mousePressFloating handleTestTool 50 50 = SelAction.startScaling :=
  (mouse_press_priority handleTestTool 50 50 rfl).1 (by decide)

/-! ## Claim C7 -/

/-- C7 counterexample: CapsLock is not in the exempt set of the claim
({Shift, Ctrl, Alt, Meta, arrows, Home/End/PageUp/PageDown, Escape,
Enter}), so by the claim it must cancel the floating selection — but the
key_press handler also exempts the three lock keys, and the selection of
the specification scenario survives a CapsLock press unchanged. -/
theorem other_key_capslock_retains_selection_cex :
    Key_CapsLock ∉ [Key_Shift, Key_Control, Key_Alt, Key_Meta,
        Key_Left, Key_Right, Key_Up, Key_Down,
        Key_PageUp, Key_PageDown, Key_Home, Key_End,
        Key_Escape, Key_Enter, Key_Return] ∧
      floatingApp.tool.is_floating = true ∧
      floatingApp.tool.destroy_on_other_action = true ∧
      keyPressBase id Key_CapsLock floatingApp = (floatingApp, false) := by
  refine ⟨by decide, rfl, rfl, rfl⟩

/-- C7 amended: while a selection is floating (with the auto-destroy flag at
its default true), pressing any key outside the exempt set of the handler — the
claimed set extended by the three lock keys CapsLock, NumLock and
ScrollLock — destroys the floating selection and reports the key as not
handled. -/
theorem other_key_cancels_floating (painterFunc : Img → Img) (k : Int)
    (s : AppState)
    (hk : k ∉ nonOperationKeys)
    (he : k ≠ Key_Escape) (hen : k ≠ Key_Enter) (hrt : k ≠ Key_Return)
    (hf : s.tool.is_floating = true)
    (hd : s.tool.destroy_on_other_action = true) :
    (keyPressBase painterFunc k s).1.tool.is_floating = false ∧
      (keyPressBase painterFunc k s).2 = false := by
  unfold keyPressBase
  rw [if_neg he, if_neg (by push_neg; exact ⟨hen, hrt⟩)]
  rw [if_pos ⟨hf, hd⟩, if_pos hk, if_pos ⟨he, hen, hrt⟩]
  exact ⟨rfl, rfl⟩

/-- C7 amended, instantiated: the key code of the letter A dismisses the
floating selection of the specification scenario. -/
theorem other_key_cancels_floating_witness :
    (keyPressBase id 65 floatingApp).1.tool.is_floating = false ∧
      (keyPressBase id 65 floatingApp).2 = false :=
  other_key_cancels_floating id 65 floatingApp (by decide) (by decide)
    (by decide) (by decide) rfl rfl

/-! ## Claim C8 -/

/-- C8: a rectangle or ellipse drag whose outline has width < 2px or height
< 2px at pointer-release creates no floating region — afterwards no
selection rectangle, captured content or mask exists, the tool is back in
idle (not drawing, not floating), and the layers and undo history are
untouched. -/
theorem minimum_size_rejection (mk : QRect → Option Img) (s : AppState)
    (sp ep : Int × Int)
    (hsp : s.tool.start_pos = some sp) (hep : s.tool.end_pos = some ep)
    (hdraw : s.tool.drawing = true)
    (hsmall : max sp.1 ep.1 - min sp.1 ep.1 ≤ 1 ∨ max sp.2 ep.2 - min sp.2 ep.2 ≤ 1) :
    (mouseReleaseDrawing mk s).tool.is_floating = false ∧
      (mouseReleaseDrawing mk s).tool.selection_rect = none ∧
      (mouseReleaseDrawing mk s).tool.selected_content = none ∧
      (mouseReleaseDrawing mk s).tool.selection_mask = none ∧
      (mouseReleaseDrawing mk s).tool.drawing = false ∧
      (mouseReleaseDrawing mk s).layers = s.layers ∧
      (mouseReleaseDrawing mk s).undoStack = s.undoStack := by
  unfold mouseReleaseDrawing
  simp only [hdraw, if_true]
  unfold finalizeSelection
  simp only [hsp, hep]
  rw [if_neg (by rintro ⟨h1, h2⟩; cases hsmall with
    | inl h => omega
    | inr h => omega)]
  unfold cancelTool cancelSelection emitStatus
  exact ⟨rfl, rfl, rfl, rfl, rfl, rfl, rfl⟩

/-- C8 instantiated at the example of the specification: a drag from
(10,10) to (10,11). -/
theorem minimum_size_rejection_witness :
    (mouseReleaseDrawing rectMask { mkApp [⟨redCanvas, false⟩] 0 with
        tool := updateDragEnd 10 11 (startNewSelection 10 10 initTool) }).tool.is_floating
        = false ∧
      (mouseReleaseDrawing rectMask { mkApp [⟨redCanvas, false⟩] 0 with
        tool := updateDragEnd 10 11 (startNewSelection 10 10 initTool) }).tool.selection_rect
        = none := by
  have h := minimum_size_rejection rectMask
    { mkApp [⟨redCanvas, false⟩] 0 with
      tool := updateDragEnd 10 11 (startNewSelection 10 10 initTool) }
    (10, 10) (10, 11) rfl rfl rfl (by decide)
  exact ⟨h.1, h.2.1⟩

/-! ## Claim C9 -/

/-- The polygon tool after two left-click vertex placements at (10,10) and
(30,10) on a fresh single-layer document. -/
def polyTwoPoints : AppState :=
  polygonCreationPress rectMask MouseButton.left 30 10
    (polygonCreationPress rectMask MouseButton.left 10 10 (mkApp [⟨redCanvas, false⟩] 0))

/-- C9 counterexample: a right-click finalization attempt with only two
vertices placed is a complete no-op — the vertices stay and accumulation
mode continues, but no status message is emitted, contradicting the claim
that every under-three finalization attempt is rejected with a user-visible
message. -/
theorem polygon_rightclick_under3_silent_cex :
    polyTwoPoints.tool.is_creating = true ∧
      polyTwoPoints.tool.points.length = 2 ∧
      polygonCreationPress rectMask MouseButton.right 40 40 polyTwoPoints =
        polyTwoPoints :=
  ⟨rfl, rfl, rfl⟩

/-- C9 amended: a finalization attempt with fewer than three vertices leaves
the tool in accumulation mode with the placed vertices intact on both paths,
but only the Enter path emits the user-visible rejection message; the
right-click path is silently ignored. -/
theorem polygon_under3_finalize (mk : QRect → Option Img)
    (painterFunc : Img → Img) (s : AppState) (x y : Int)
    (hnf : s.tool.is_floating = false)
    (hc : s.tool.is_creating = true)
    (hlen : s.tool.points.length < 3) :
    polygonKeyPress mk painterFunc Key_Enter s =
        (emitStatus "多边形至少需要3个点才能完成" s, true) ∧
      polygonCreationPress mk MouseButton.right x y s = s := by
  constructor
  · unfold polygonKeyPress
    rw [if_neg (by decide)]
    rw [if_pos (Or.inl rfl)]
    rw [if_neg (by rw [hnf]; exact Bool.false_ne_true)]
    rw [if_neg (by rintro ⟨h3, h4⟩; omega)]
    rw [if_pos ⟨hc, hlen⟩]
  · unfold polygonCreationPress
    simp only
    rw [if_neg (by rintro ⟨h3, h4⟩; omega)]
    rw [if_neg (by rw [hc]; simp)]

/-- C9 amended, instantiated at the two-vertex state. -/
theorem polygon_under3_finalize_witness :
    polygonKeyPress rectMask id Key_Enter polyTwoPoints =
        (emitStatus "多边形至少需要3个点才能完成" polyTwoPoints, true) ∧
      polygonCreationPress rectMask MouseButton.right 40 40 polyTwoPoints =
        polyTwoPoints :=
  polygon_under3_finalize rectMask id polyTwoPoints 40 40 rfl rfl (by decide)

/-! ## Claim C10 -/

/-- The early-return guard of _commit_selection: with no captured content the
commit is a complete no-op — no history, no draw, no message, and the
floating state survives. -/
theorem commit_noop_when_no_content (painterFunc : Img → Img) (s : AppState)
    (h : s.tool.selected_content = none) :
    commitSelectionWith painterFunc s = s := by
  unfold commitSelectionWith
  rw [if_pos]
  simp [h]

/-- _finalize_selection on a controller without layers: the tool still
enters floating mode with the transform reset, but _capture_selection
returns before capturing, leaving mask and content untouched. -/
theorem finalize_no_layers_eq (mk : QRect → Option Img) (s : AppState)
    (sp ep : Int × Int)
    (hl : s.layers = [])
    (hsp : s.tool.start_pos = some sp) (hep : s.tool.end_pos = some ep)
    (hw : 1 < max sp.1 ep.1 - min sp.1 ep.1)
    (hh : 1 < max sp.2 ep.2 - min sp.2 ep.2) :
    finalizeSelection mk s =
      emitStatus (readyMessage
          (QRect.mk4 (min sp.1 ep.1) (min sp.2 ep.2) (max sp.1 ep.1 - min sp.1 ep.1)
            (max sp.2 ep.2 - min sp.2 ep.2)).width
          (QRect.mk4 (min sp.1 ep.1) (min sp.2 ep.2) (max sp.1 ep.1 - min sp.1 ep.1)
            (max sp.2 ep.2 - min sp.2 ep.2)).height)
        { s with tool := { s.tool with
            selection_rect := some (QRect.mk4 (min sp.1 ep.1) (min sp.2 ep.2)
              (max sp.1 ep.1 - min sp.1 ep.1) (max sp.2 ep.2 - min sp.2 ep.2))
            is_floating := true
            scale_factor := 1
            rotation_angle := 0 } } := by
  unfold finalizeSelection
  simp only [hsp, hep]
  rw [if_pos ⟨hw, hh⟩]
  unfold captureSelectionApp
  simp [hl]

/-- C10: when no layer is available while a drawn outline of sufficient size
is finalized, the tool still enters floating state with selected_content
None; in that state Enter and an outside click (the commit dispatch
outcome) are silent no-ops that keep the state — including the floating
flag and the message log — unchanged, while the cancellation paths (Escape,
tool switch or other-operation notification) do leave floating state. -/
theorem no_layer_floating (mk : QRect → Option Img) (painterFunc : Img → Img)
    (s : AppState) (sp ep : Int × Int)
    (hl : s.layers = [])
    (hsp : s.tool.start_pos = some sp) (hep : s.tool.end_pos = some ep)
    (hw : 1 < max sp.1 ep.1 - min sp.1 ep.1)
    (hh : 1 < max sp.2 ep.2 - min sp.2 ep.2)
    (hc0 : s.tool.selected_content = none)
    (hd : s.tool.destroy_on_other_action = true) :
    (finalizeSelection mk s).tool.is_floating = true ∧
      (finalizeSelection mk s).tool.selected_content = none ∧
      keyPressBase painterFunc Key_Enter (finalizeSelection mk s) =
        (finalizeSelection mk s, true) ∧
      (∀ x y : Int,
        mousePressFloating (finalizeSelection mk s).tool x y = SelAction.commit →
        mousePressFloatingApp painterFunc x y (finalizeSelection mk s) =
          finalizeSelection mk s) ∧
      (keyPressBase painterFunc Key_Escape (finalizeSelection mk s)).1.tool.is_floating
        = false ∧
      (onOtherOperation (finalizeSelection mk s)).tool.is_floating = false := by
  have hsF := finalize_no_layers_eq mk s sp ep hl hsp hep hw hh
  have hcf : (finalizeSelection mk s).tool.selected_content = none := by
    rw [hsF]; exact hc0
  refine ⟨by rw [hsF]; rfl, hcf, ?_, ?_, ?_, ?_⟩
  · unfold keyPressBase
    rw [if_neg (by decide), if_pos (Or.inl rfl)]
    rw [if_pos (by rw [hsF]; rfl)]
    rw [commit_noop_when_no_content painterFunc _ hcf]
  · intro x y hcm
    unfold mousePressFloatingApp
    rw [hcm]
    exact commit_noop_when_no_content painterFunc _ hcf
  · unfold keyPressBase
    rw [if_pos rfl]
    rfl
  · unfold onOtherOperation
    rw [if_pos ⟨by rw [hsF]; rfl, by rw [hsF]; exact hd⟩]
    rfl

/-- A drawn outline on a controller with no layers (the empty-document
state, active index -1). -/
def noLayerApp : AppState :=
  { mkApp [] (-1) with tool := updateDragEnd 60 60 (startNewSelection 20 20 initTool) }

/-- C10 instantiated at the empty-document drag. -/
theorem no_layer_floating_witness :
    (finalizeSelection rectMask noLayerApp).tool.is_floating = true ∧
      (finalizeSelection rectMask noLayerApp).tool.selected_content = none ∧
      keyPressBase id Key_Enter (finalizeSelection rectMask noLayerApp) =
        (finalizeSelection rectMask noLayerApp, true) := by
  have h := no_layer_floating rectMask id noLayerApp (20, 20) (60, 60) rfl rfl rfl
    (by decide) (by decide) rfl rfl
  exact ⟨h.1, h.2.1, h.2.2.1⟩
